import Mathlib

/-!
Verification of the molo-spider crawler (`src/scripts/crawler.py`) against its
natural-language specification.  The crawler's logic is shallowly embedded:
Python strings become Lean `String`s, the `urllib.parse` helpers the crawler
calls (`urljoin`, `urlparse`) are modelled from CPython 3.11's algorithm, and
the crawl loop becomes a fuel-indexed step function over an explicit state
record.  External collaborators (the HTTP transport, the crawl-status oracle
backed by the relational store, and the presence of the relational client) are
parameters gathered in an `Env` record.
-/

/-- Python `p.startswith(s)` on character lists: `charsPrefix p s` is true when
`p` is an initial segment of `s`. -/
def charsPrefix : List Char → List Char → Bool
  | [], _ => true
  | _ :: _, [] => false
  | p :: ps, c :: cs => (p == c) && charsPrefix ps cs

/-- Python `s.startswith(p)`. -/
def pyStartsWith (s p : String) : Bool := charsPrefix p.data s.data

/-- Python `c in s` for a single character `c`. -/
def pyContainsChar (s : String) (c : Char) : Bool := s.data.contains c

/-- Splits a character list at every occurrence of `c` (helper for Python's
`s.split(c)`). -/
def splitCharAux (c : Char) : List Char → List Char → List (List Char)
  | [], acc => [acc.reverse]
  | x :: xs, acc =>
    if x == c then acc.reverse :: splitCharAux c xs []
    else splitCharAux c xs (x :: acc)

/-- Python `s.split(c)` for a one-character separator. -/
def pySplitChar (c : Char) (s : String) : List String :=
  (splitCharAux c s.data []).map (fun l => String.mk l)

/-- Python `s.lower()` (the crawler only meets ASCII extensions). -/
def pyLower (s : String) : String := String.mk (s.data.map Char.toLower)

/-- Python `s.strip()`: whitespace removed from both ends. -/
def pyStrip (s : String) : String :=
  String.mk (((s.data.dropWhile Char.isWhitespace).reverse.dropWhile Char.isWhitespace).reverse)

/-- Python `sep.join(parts)`. -/
def joinWith (sep : String) : List String → String
  | [] => ""
  | [x] => x
  | x :: xs => x ++ sep ++ joinWith sep xs

/-- The pieces of a split URL, as returned by `urllib.parse.urlsplit`: scheme,
network location, path, query, fragment.  (`params` never occurs in the
crawler's URLs — no `;` in a last path segment — and is treated as empty.) -/
structure URLParts where
  scheme : String
  netloc : String
  path : String
  query : String
  fragment : String
deriving DecidableEq

/-- Characters allowed in a URL scheme after the leading letter. -/
def isSchemeChar (c : Char) : Bool :=
  c.isAlphanum || c == '+' || c == '-' || c == '.'

/-- Scans for a `scheme:` head: accumulates scheme characters until the first
colon, failing on any other character. -/
def schemeScan : List Char → List Char → Option (List Char × List Char)
  | [], _ => none
  | c :: cs, acc =>
    if c == ':' then some (acc.reverse, cs)
    else if isSchemeChar c then schemeScan cs (c :: acc)
    else none

/-- Splits the scheme off a URL as CPython's `urlsplit` does: the part before
the first colon counts as a scheme when it starts with a letter and consists of
scheme characters only; the scheme is lowercased. -/
def splitScheme (s : String) : String × String :=
  match s.data with
  | [] => ("", s)
  | c :: _ =>
    if c.isAlpha then
      match schemeScan s.data [] with
      | some (sch, rest) => (pyLower (String.mk sch), String.mk rest)
      | none => ("", s)
    else ("", s)

/-- Takes the network location: the characters up to the first `/`, `?` or `#`;
returns the netloc characters and the rest. -/
def netlocScan : List Char → List Char × List Char
  | [] => ([], [])
  | c :: cs =>
    if c == '/' || c == '?' || c == '#' then ([], c :: cs)
    else
      match netlocScan cs with
      | (n, r) => (c :: n, r)

/-- Splits a character list at the first occurrence of `c`: `some (before,
after)` without the separator, `none` when `c` is absent. -/
def breakAt (c : Char) : List Char → Option (List Char × List Char)
  | [] => none
  | x :: xs =>
    if x == c then some ([], xs)
    else
      match breakAt c xs with
      | none => none
      | some (b, a) => some (x :: b, a)

/-- Model of `urllib.parse.urlsplit url default_scheme` (CPython 3.11): the
scheme is split first, then `//netloc` (delimited by `/?#`), then the fragment
at the first `#`, then the query at the first `?`. -/
def urlsplitModel (url : String) (default_scheme : String) : URLParts :=
  let p := splitScheme url
  let scheme := if p.1 = "" then default_scheme else p.1
  let q :=
    if pyStartsWith p.2 ("//") then netlocScan (p.2.data.drop 2)
    else ([], p.2.data)
  let netloc := String.mk q.1
  let fr :=
    match breakAt ('#') q.2 with
    | some (b, a) => (b, String.mk a)
    | none => (q.2, "")
  let qu :=
    match breakAt ('?') fr.1 with
    | some (b, a) => (String.mk b, String.mk a)
    | none => (String.mk fr.1, "")
  ⟨scheme, netloc, qu.1, qu.2, fr.2⟩

/-- Model of `urllib.parse.urlunsplit`. -/
def urlunsplitModel (p : URLParts) : String :=
  let url := p.path
  let url :=
    if p.netloc ≠ "" ∨ (url ≠ "" ∧ pyStartsWith url ("//") = true) then
      (if url ≠ "" ∧ pyStartsWith url ("/") = false then
        ("//") ++ p.netloc ++ ("/") ++ url
       else ("//") ++ p.netloc ++ url)
    else url
  let url := if p.scheme ≠ "" then p.scheme ++ (":") ++ url else url
  let url := if p.query ≠ "" then url ++ ("?") ++ p.query else url
  if p.fragment ≠ "" then url ++ ("#") ++ p.fragment else url

/-- CPython `urllib.parse.uses_relative`. -/
def uses_relative : List String :=
  ["", "ftp", "http", "gopher", "nntp", "imap", "wais", "file", "https",
   "shttp", "mms", "prospero", "rtsp", "rtsps", "rtspu", "sftp", "svn",
   "svn+ssh", "ws", "wss"]

/-- CPython `urllib.parse.uses_netloc`. -/
def uses_netloc : List String :=
  ["", "ftp", "http", "gopher", "nntp", "telnet", "imap", "wais", "file",
   "mms", "https", "shttp", "snews", "prospero", "rtsp", "rtsps", "rtspu",
   "rsync", "svn", "svn+ssh", "sftp", "nfs", "git", "git+ssh", "ws", "wss"]

/-- CPython `urljoin`'s `segments[1:-1] = filter(None, segments[1:-1])`: empty
segments are dropped, keeping the first and last elements untouched. -/
def filterMiddle (l : List String) : List String :=
  match l with
  | [] => []
  | [a] => [a]
  | a :: rest => a :: ((rest.dropLast.filter (fun s => s != "")) ++ [rest.getLastD ("")])

/-- The `..` and `.` segment-resolution loop of CPython `urljoin` (a `..`
popped from an empty list is ignored). -/
def resolveSegs (segs : List String) : List String :=
  let res := segs.foldl
    (fun acc seg =>
      if seg = ".." then acc.dropLast
      else if seg = "." then acc
      else acc ++ [seg]) []
  if segs.getLastD ("") = "." ∨ segs.getLastD ("") = ".." then res ++ [""] else res

/-- Model of `urllib.parse.urljoin` (CPython 3.11). -/
def urljoinModel (base url : String) : String :=
  if base = "" then url
  else if url = "" then base
  else
    let b := urlsplitModel base ("")
    let u := urlsplitModel url b.scheme
    if u.scheme ≠ b.scheme ∨ u.scheme ∉ uses_relative then url
    else if u.scheme ∈ uses_netloc ∧ u.netloc ≠ "" then urlunsplitModel u
    else
      let netloc := if u.scheme ∈ uses_netloc then b.netloc else u.netloc
      if u.path = "" then
        urlunsplitModel
          ⟨u.scheme, netloc, b.path, (if u.query = "" then b.query else u.query), u.fragment⟩
      else
        let base_parts0 := pySplitChar ('/') b.path
        let base_parts :=
          if base_parts0.getLastD ("") ≠ "" then base_parts0.dropLast else base_parts0
        let segments :=
          if pyStartsWith u.path ("/") then pySplitChar ('/') u.path
          else filterMiddle (base_parts ++ pySplitChar ('/') u.path)
        let joined := joinWith ("/") (resolveSegs segments)
        urlunsplitModel ⟨u.scheme, netloc, (if joined = "" then "/" else joined), u.query, u.fragment⟩

/-- `urllib.parse.urlparse(s).netloc`, the only parse field the crawler's link
classification reads. -/
def netlocOf (s : String) : String := (urlsplitModel s ("")).netloc

example : urljoinModel "https://example.com" "/about" = "https://example.com/about" := by decide
example : urljoinModel "https://example.com" "https://other.com" = "https://other.com" := by decide
example : urljoinModel "https://example.com/page" "#" = "https://example.com/page" := by decide
example : urljoinModel "https://example.com/page" "#sec" = "https://example.com/page#sec" := by decide
example : urljoinModel "https://example.com/page" "mailto:x@y.com" = "mailto:x@y.com" := by decide
example : urljoinModel "https://example.com/page" "tel:123" = "tel:123" := by decide
example : urljoinModel "https://example.com/" "logo.png?v=1" = "https://example.com/logo.png?v=1" := by decide
example : urljoinModel "https://example.com" "logo.png?v=1" = "https://example.com/logo.png?v=1" := by decide
example : urljoinModel "https://example.com/" "https://localhost/logo" = "https://localhost/logo" := by decide
example : urljoinModel "https://example.com/dir/page.html" "sub/other.html" = "https://example.com/dir/sub/other.html" := by decide
example : netlocOf "https://example.com/about" = "example.com" := by decide
example : netlocOf "mailto:x@y.com" = "" := by decide
example : netlocOf "a.com/x" = "" := by decide

/-- An `<a href=...>` tag as `soup.find_all('a', href=True)` yields it: the raw
`href` attribute and the (possibly empty) list of `rel` tokens. -/
structure Anchor where
  href : String
  rel : List String
deriving DecidableEq

/-- An `<img src=...>` tag as `soup.find_all('img', src=True)` yields it. -/
structure ImageTag where
  src : String
  alt : String
deriving DecidableEq

/-- One image record of `extract_image_data`: resolved src, stripped alt text,
derived format. -/
structure ImageRecord where
  src : String
  alt : String
  format : String
deriving DecidableEq

/-- The three link counters produced by `analyze_links`. -/
structure LinkAnalysis where
  internal_links : Nat
  external_links : Nat
  nofollow_links : Nat
deriving DecidableEq

/-- One `page_links` row as `process_links` inserts it. -/
structure LinkEdge where
  crawl_id : String
  from_url : String
  to_url : String
  is_nofollow : Bool
deriving DecidableEq

/-- `crawler.py` line 224: a link is internal when the `urlparse` netloc of the
reference URL equals the netloc of the resolved link (`analyze_links` line 186
uses the same comparison with the page URL as reference). -/
def is_internal (reference resolved : String) : Bool :=
  netlocOf reference == netlocOf resolved

/-- `extract_image_data`'s per-image format derivation, lines 133-140: when the
resolved src contains a `.`, take the substring after the last `.`, lowercase
it, then cut it at a `?` and at a `#`; otherwise the format is empty. -/
def formatOf (absolute_src : String) : String :=
  if pyContainsChar absolute_src ('.') then
    let f := pyLower ((pySplitChar ('.') absolute_src).getLastD (""))
    let f := if pyContainsChar f ('?') then (pySplitChar ('?') f).headD ("") else f
    if pyContainsChar f ('#') then (pySplitChar ('#') f).headD ("") else f
  else ""

/-- The loop body of `extract_image_data` (lines 113-148), threading the
`seen_srcs` set: a stripped-empty src is skipped, a src already seen on this
page is skipped, otherwise the src is resolved against the page URL and one
record is emitted.  (`urljoin` on strings does not raise, so the
`except: absolute_src = src` fallback of line 127 is unreachable.) -/
def extract_image_data_aux (current_url : String) : List ImageTag → List String → List ImageRecord
  | [], _ => []
  | img :: rest, seen_srcs =>
    let src := pyStrip img.src
    if src = "" then extract_image_data_aux current_url rest seen_srcs
    else if src ∈ seen_srcs then extract_image_data_aux current_url rest seen_srcs
    else
      let absolute_src := urljoinModel current_url src
      let alt := pyStrip img.alt
      ⟨absolute_src, alt, formatOf absolute_src⟩ ::
        extract_image_data_aux current_url rest (src :: seen_srcs)

/-- `extract_image_data(soup, current_url)` (lines 106-152). -/
def extract_image_data (imgs : List ImageTag) (current_url : String) : List ImageRecord :=
  extract_image_data_aux current_url imgs []

/-- The href filter of `analyze_links` line 173: an empty href or a
`javascript:` head is skipped. -/
def skipCountHref (href : String) : Bool :=
  href = "" || pyStartsWith href ("javascript:")

/-- The href filter of `process_links` line 212: an empty href or one of the
`javascript:`, `mailto:`, `tel:`, `#` heads is skipped. -/
def skipEdgeHref (href : String) : Bool :=
  href = "" || pyStartsWith href ("javascript:") || pyStartsWith href ("mailto:")
    || pyStartsWith href ("tel:") || pyStartsWith href ("#")

/-- `analyze_links(soup, base_url)` (lines 162-198): anchors with an empty href
or a `javascript:` href are skipped; a `nofollow` rel token bumps the nofollow
counter; the href is resolved against the page URL and counted internal when
the netlocs match, external otherwise.  (`urljoin`/`urlparse` on strings do not
raise, so the `except: external_links += 1` branch of lines 190-192 is
unreachable.) -/
def analyze_links : List Anchor → String → LinkAnalysis
  | [], _ => ⟨0, 0, 0⟩
  | a :: rest, base_url =>
    let r := analyze_links rest base_url
    if skipCountHref a.href then r
    else
      let r1 :=
        if a.rel.contains ("nofollow") then { r with nofollow_links := r.nofollow_links + 1 }
        else r
      if is_internal base_url (urljoinModel base_url a.href) then
        { r1 with internal_links := r1.internal_links + 1 }
      else { r1 with external_links := r1.external_links + 1 }

/-- `process_links(soup, current_url, domain, crawl_id, visited, to_visit)`
(lines 200-269), returning `(internal_links_found, to_visit, page_links rows)`.
Anchors whose href is empty or starts with `javascript:`, `mailto:`, `tel:` or
`#` are skipped (line 212); an internal resolved link is recorded and appended
to `to_visit` when it is in neither `visited` nor `to_visit` (lines 226-233);
every non-skipped anchor is inserted into `page_links` when the relational
client exists (lines 236-247) — duplicate-key failures only affect logging. -/
def process_links : List Anchor → String → String → String → List String → List String → Bool →
    List String × List String × List LinkEdge
  | [], _, _, _, _, to_visit, _ => ([], to_visit, [])
  | a :: rest, current_url, domain, crawl_id, visited, to_visit, sup =>
    if skipEdgeHref a.href then
      process_links rest current_url domain crawl_id visited to_visit sup
    else
      let resolved_href := urljoinModel current_url a.href
      let isInt := is_internal domain resolved_href
      let found1 : List String := if isInt then [resolved_href] else []
      let to_visit2 :=
        if isInt ∧ resolved_href ∉ visited ∧ resolved_href ∉ to_visit then
          to_visit ++ [resolved_href]
        else to_visit
      let edge : List LinkEdge :=
        if sup then [⟨crawl_id, current_url, resolved_href, a.rel.contains ("nofollow")⟩]
        else []
      let r := process_links rest current_url domain crawl_id visited to_visit2 sup
      (found1 ++ r.1, r.2.1, edge ++ r.2.2)

/-- The parsed body of a successful HTTP response, restricted to the tags the
claims depend on: the page's anchors and images.  (The remaining extraction —
title, meta description, canonical, schema types, text length, heading counts —
is per-field glue no claim quantifies over.) -/
structure Page where
  anchors : List Anchor
  imgs : List ImageTag
deriving DecidableEq

/-- The outcome of `requests.get` for one URL: a transport exception, or a
response with a status code and a parsed body. -/
inductive Fetch where
  | fetchError : Fetch
  | response : Nat → Page → Fetch
deriving DecidableEq

/-- The crawler's external collaborators: the HTTP transport, the crawl-status
oracle (the value the `crawls` table query of `check_crawl_status` reports at
the n-th check — the check runs once per dequeued-and-unvisited URL, so it is
indexed by `page_count`), and whether the relational client was initialized. -/
structure Env where
  fetch : String → Fetch
  oracleStatus : Nat → String
  hasSupabase : Bool

/-- `check_crawl_status(crawl_id)` (lines 39-51): without a relational client
the function returns `"running"`; otherwise it reports what the `crawls` table
holds (an unreachable oracle also yields `"running"`, which the `oracleStatus`
parameter may model directly). -/
def check_crawl_status (env : Env) (page_count : Nat) : String :=
  if env.hasSupabase then env.oracleStatus page_count else "running"

/-- One CSV row of the tabular sink, restricted to the fields the claims read:
the page URL, its status code and the three link counters.  (The other columns
— title, meta description, canonical, schema types, text length, heading
counts, the always-empty target keyword — are extraction glue.) -/
structure Row where
  url : String
  status_code : Nat
  links : LinkAnalysis
deriving DecidableEq

/-- The mutable state of `crawl` (lines 271-460): `visited` and `to_visit` as
in the source, `page_count`, plus observation logs — the URLs passed to
`requests.get` (`fetched`), the CSV rows written, the `page_links` rows
inserted, the image records extracted per page, whether the loop exited through
the cancellation `break`, the URL in hand at that `break`, and whether the
final `crawls`-table update to "finished" was executed. -/
structure CrawlState where
  visited : List String
  to_visit : List String
  page_count : Nat
  fetched : List String
  rows : List Row
  edges : List LinkEdge
  images : List (String × ImageRecord)
  cancelled : Bool
  cancelledAt : Option String
  statusSetFinished : Bool
deriving DecidableEq, Inhabited

/-- The body of the `try` block for one URL (lines 316-446): the URL is passed
to `requests.get`; a transport exception (caught at line 445) or a status code
other than 200 (line 321) leaves everything but the `fetched` log unchanged;
on a 200 response the links are analyzed, `process_links` grows `to_visit` and
inserts the `page_links` rows, the images are extracted, and one CSV row is
written. -/
def processUrl (env : Env) (domain crawl_id url : String) (st : CrawlState) : CrawlState :=
  let st := { st with fetched := st.fetched ++ [url] }
  match env.fetch url with
  | Fetch.fetchError => st
  | Fetch.response status page =>
    if status ≠ 200 then st
    else
      let link_analysis := analyze_links page.anchors url
      let pl := process_links page.anchors url domain crawl_id st.visited st.to_visit env.hasSupabase
      let imgs := extract_image_data page.imgs url
      { st with
          to_visit := pl.2.1,
          rows := st.rows ++ [⟨url, status, link_analysis⟩],
          edges := st.edges ++ pl.2.2,
          images := st.images ++ imgs.map (fun r => (url, r)) }

/-- The `while to_visit:` loop (lines 299-446), indexed by fuel: the front URL
is popped; an already-visited URL is discarded (line 301); otherwise the URL is
added to `visited`, `page_count` is bumped, and the status check runs — on
`"failed"` the loop breaks (lines 307-311), else the URL is processed.  `none`
means the fuel ran out before the loop ended. -/
def crawlLoop (env : Env) (domain crawl_id : String) : Nat → CrawlState → Option CrawlState
  | 0, _ => none
  | fuel + 1, st =>
    match st.to_visit with
    | [] => some st
    | url :: rest =>
      if url ∈ st.visited then crawlLoop env domain crawl_id fuel { st with to_visit := rest }
      else
        let st1 :=
          { st with
              to_visit := rest,
              visited := st.visited ++ [url],
              page_count := st.page_count + 1 }
        if check_crawl_status env st1.page_count = "failed" then
          some { st1 with cancelled := true, cancelledAt := some url }
        else crawlLoop env domain crawl_id fuel (processUrl env domain crawl_id url st1)

/-- Lines 276-278: a scheme is prepended when the domain argument lacks one. -/
def ensureScheme (domain : String) : String :=
  if pyStartsWith domain ("http://") || pyStartsWith domain ("https://") then domain
  else ("https://") ++ domain

/-- The initial crawl state: `visited = set()`, `to_visit = [domain]`
(lines 272-278). -/
def initState (domain : String) : CrawlState :=
  ⟨[], [domain], 0, [], [], [], [], false, none, false⟩

/-- `crawl(domain, output_file, crawl_id)` (lines 271-460): the domain is
scheme-normalized, the loop runs, and afterwards — whenever the relational
client exists — the `crawls` record is updated to "finished" (lines 452-459);
this update is not guarded by how the loop ended. -/
def crawl (env : Env) (domain crawl_id : String) (fuel : Nat) : Option CrawlState :=
  let d := ensureScheme domain
  (crawlLoop env d crawl_id fuel (initState d)).map
    (fun st => { st with statusSetFinished := env.hasSupabase })

/-- `processUrl` never touches the visited set: the URL was added to `visited`
before the fetch (line 304). -/
theorem processUrl_visited (env : Env) (domain crawl_id url : String) (st : CrawlState) :
    (processUrl env domain crawl_id url st).visited = st.visited := by
  unfold processUrl
  cases env.fetch url with
  | fetchError => rfl
  | response status page => by_cases h : status = 200 <;> simp [h]

/-- `processUrl` records exactly one fetch attempt for the given URL. -/
theorem processUrl_fetched (env : Env) (domain crawl_id url : String) (st : CrawlState) :
    (processUrl env domain crawl_id url st).fetched = st.fetched ++ [url] := by
  unfold processUrl
  cases env.fetch url with
  | fetchError => rfl
  | response status page => by_cases h : status = 200 <;> simp [h]

/-- `processUrl` never sets the cancellation flag. -/
theorem processUrl_cancelled (env : Env) (domain crawl_id url : String) (st : CrawlState) :
    (processUrl env domain crawl_id url st).cancelled = st.cancelled := by
  unfold processUrl
  cases env.fetch url with
  | fetchError => rfl
  | response status page => by_cases h : status = 200 <;> simp [h]

/-- `processUrl` appends at most one CSV row, and any appended row carries the
processed URL. -/
theorem processUrl_rows (env : Env) (domain crawl_id url : String) (st : CrawlState) :
    (processUrl env domain crawl_id url st).rows = st.rows ∨
      ∃ la, (processUrl env domain crawl_id url st).rows =
        st.rows ++ [⟨url, 200, la⟩] := by
  unfold processUrl
  cases env.fetch url with
  | fetchError => exact Or.inl rfl
  | response status page =>
    by_cases h : status = 200
    · subst h
      exact Or.inr ⟨analyze_links page.anchors url, by simp⟩
    · simp [h]

/-- Appending a fresh element keeps a list duplicate-free. -/
theorem nodup_append_single {α : Type} {l : List α} {a : α} (h : l.Nodup) (ha : a ∉ l) :
    (l ++ [a]).Nodup := by
  simp [List.nodup_append, h, ha]

/-- The crawl-loop invariant behind the no-double-fetch claim: fetch attempts
are duplicate-free, CSV-row URLs are duplicate-free, every fetched URL is in
the visited set, and every row URL was fetched. -/
def InvC5 (st : CrawlState) : Prop :=
  st.fetched.Nodup ∧ (st.rows.map Row.url).Nodup ∧
    st.fetched ⊆ st.visited ∧ st.rows.map Row.url ⊆ st.fetched

/-- Processing one URL that is already visited but not yet fetched preserves
the no-double-fetch invariant. -/
theorem processUrl_InvC5 (env : Env) (domain crawl_id url : String) (st : CrawlState)
    (h : InvC5 st) (hmem : url ∈ st.visited) (hnew : url ∉ st.fetched) :
    InvC5 (processUrl env domain crawl_id url st) := by
  obtain ⟨h1, h2, h3, h4⟩ := h
  have hrownew : url ∉ st.rows.map Row.url := fun hx => hnew (h4 hx)
  have hf := processUrl_fetched env domain crawl_id url st
  have hv := processUrl_visited env domain crawl_id url st
  have hfn : (st.fetched ++ [url]).Nodup := nodup_append_single h1 hnew
  have hfsub : st.fetched ++ [url] ⊆ st.visited := by
    intro x hx
    rcases List.mem_append.mp hx with hx | hx
    · exact h3 hx
    · simp at hx; subst hx; exact hmem
  rcases processUrl_rows env domain crawl_id url st with hr | ⟨la, hr⟩
  · refine ⟨?_, ?_, ?_, ?_⟩
    · rw [hf]; exact hfn
    · rw [hr]; exact h2
    · rw [hf, hv]; exact hfsub
    · rw [hr, hf]; exact h4.trans (List.subset_append_left _ _)
  · refine ⟨?_, ?_, ?_, ?_⟩
    · rw [hf]; exact hfn
    · rw [hr]; simpa using nodup_append_single h2 hrownew
    · rw [hf, hv]; exact hfsub
    · rw [hr, hf]
      simp only [List.map_append]
      intro x hx
      rcases List.mem_append.mp hx with hx | hx
      · exact List.mem_append.mpr (Or.inl (h4 hx))
      · simp at hx; subst hx; simp

/-- The crawl loop preserves the no-double-fetch invariant. -/
theorem crawlLoop_InvC5 (env : Env) (domain crawl_id : String) :
    ∀ fuel st r, crawlLoop env domain crawl_id fuel st = some r → InvC5 st → InvC5 r := by
  intro fuel
  induction fuel with
  | zero => intro st r h; simp [crawlLoop] at h
  | succ n ih =>
    intro st r h hinv
    rw [crawlLoop] at h
    rcases hv : st.to_visit with _ | ⟨url, rest⟩
    · rw [hv] at h
      simp at h
      subst h
      exact hinv
    · rw [hv] at h
      simp only [] at h
      by_cases hm : url ∈ st.visited
      · rw [if_pos hm] at h
        exact ih _ _ h hinv
      · rw [if_neg hm] at h
        by_cases hc : check_crawl_status env (st.page_count + 1) = "failed"
        · rw [if_pos hc] at h
          simp at h
          subst h
          obtain ⟨h1, h2, h3, h4⟩ := hinv
          exact ⟨h1, h2, h3.trans (List.subset_append_left _ _), h4⟩
        · rw [if_neg hc] at h
          refine ih _ _ h ?_
          refine processUrl_InvC5 env domain crawl_id url _ ?_ ?_ ?_
          · obtain ⟨h1, h2, h3, h4⟩ := hinv
            exact ⟨h1, h2, h3.trans (List.subset_append_left _ _), h4⟩
          · simp
          · exact fun hx => hm (hinv.2.2.1 hx)

/-- Without a relational client the status check never reports "failed", so
the loop only returns at an empty frontier and the cancellation flag keeps its
entry value. -/
theorem crawlLoop_no_supabase (env : Env) (domain crawl_id : String)
    (hsup : env.hasSupabase = false) :
    ∀ fuel st r, crawlLoop env domain crawl_id fuel st = some r →
      r.cancelled = st.cancelled ∧ r.to_visit = [] := by
  intro fuel
  induction fuel with
  | zero => intro st r h; simp [crawlLoop] at h
  | succ n ih =>
    intro st r h
    rw [crawlLoop] at h
    rcases hv : st.to_visit with _ | ⟨url, rest⟩
    · rw [hv] at h
      simp at h
      subst h
      exact ⟨rfl, hv⟩
    · rw [hv] at h
      simp only [] at h
      by_cases hm : url ∈ st.visited
      · rw [if_pos hm] at h
        have h2 := ih _ _ h
        exact ⟨h2.1, h2.2⟩
      · rw [if_neg hm] at h
        have hc : check_crawl_status env (st.page_count + 1) ≠ "failed" := by
          simp [check_crawl_status, hsup]
        rw [if_neg hc] at h
        have := ih _ _ h
        rwa [processUrl_cancelled] at this

/-- At loop entry the visited and fetched lists agree; therefore a loop that
exits through the cancellation break leaves exactly the URL in hand visited
but unfetched, and a normal exit leaves the two lists equal. -/
theorem crawlLoop_cancel_shape (env : Env) (domain crawl_id : String) :
    ∀ fuel st r, crawlLoop env domain crawl_id fuel st = some r →
      st.visited = st.fetched → st.cancelled = false →
      (r.cancelled = false → r.visited = r.fetched) ∧
      (r.cancelled = true → ∃ u, r.cancelledAt = some u ∧ r.visited = r.fetched ++ [u]) := by
  intro fuel
  induction fuel with
  | zero => intro st r h; simp [crawlLoop] at h
  | succ n ih =>
    intro st r h hvf hcf
    rw [crawlLoop] at h
    rcases hv : st.to_visit with _ | ⟨url, rest⟩
    · rw [hv] at h
      simp at h
      subst h
      refine ⟨fun _ => hvf, fun hc => ?_⟩
      rw [hcf] at hc
      exact absurd hc (by decide)
    · rw [hv] at h
      simp only [] at h
      by_cases hm : url ∈ st.visited
      · rw [if_pos hm] at h
        exact ih _ _ h hvf hcf
      · rw [if_neg hm] at h
        by_cases hc : check_crawl_status env (st.page_count + 1) = "failed"
        · rw [if_pos hc] at h
          simp at h
          subst h
          refine ⟨fun hx => by simp at hx, fun _ => ⟨url, rfl, ?_⟩⟩
          simp [hvf]
        · rw [if_neg hc] at h
          refine ih _ _ h ?_ ?_
          · rw [processUrl_visited, processUrl_fetched]
            simp [hvf]
          · rw [processUrl_cancelled]
            exact hcf

/-- Environment for the C1 run: the relational client exists and the oracle
reports "failed" at the very first status check; fetches never happen. -/
def envC1 : Env := ⟨fun _ => Fetch.fetchError, fun _ => "failed", true⟩

/-- C1: the claim — a run that terminates through the cancellation signal does
not get its job status overwritten to "finished" — fails on the code.  The
final `crawls`-table update to "finished" (lines 452-459) runs whenever the
relational client exists, with no guard on how the loop ended; cancellation
itself requires that client, so every cancelled run is overwritten.  This run
is cancelled at the first status check and the update still executes. -/
theorem C1_cancelled_run_still_marked_finished :
    (crawl envC1 "example.com" "cid" 10).map
        (fun r => (r.cancelled, r.statusSetFinished, r.fetched)) =
      some (true, true, []) := by
  decide

/-- Transport for the C3 counterexample: every fetch answers HTTP 204 — a 2xx
status — with a page holding one anchor and one image. -/
def envC3x : Env :=
  ⟨fun _ => Fetch.response 204 ⟨[⟨"/x", []⟩], [⟨"a.png", ""⟩]⟩, fun _ => "running", true⟩

/-- C3 counterexample: HTTP 204 is a 2xx status, yet the run persists nothing
for the fetched seed — no CSV row, no page_links row, no image record, no
frontier growth — because the code tests `status_code != 200`, not non-2xx. -/
theorem C3_counterexample :
    (crawl envC3x "https://example.com" "cid" 5).map
        (fun r => (r.rows, r.edges, r.images, r.visited, r.fetched)) =
      some ([], [], [], ["https://example.com"], ["https://example.com"]) := by
  rfl

/-- C3 amended: a transport error, or any status other than exactly 200 (other
2xx codes included), leaves the state unchanged apart from the fetch-attempt
log — no CSV row, no page_links rows, no image records, no frontier growth,
and the visited set keeps the URL; a 200 response appends exactly one CSV row
for the URL.  (`crawlLoop` then recurses on the rest of the frontier in either
case.) -/
theorem C3_only_status_200_processed (env : Env) (domain crawl_id url : String)
    (st : CrawlState) :
    (env.fetch url = Fetch.fetchError →
      processUrl env domain crawl_id url st = { st with fetched := st.fetched ++ [url] }) ∧
    (∀ status page, env.fetch url = Fetch.response status page → status ≠ 200 →
      processUrl env domain crawl_id url st = { st with fetched := st.fetched ++ [url] }) ∧
    (∀ page, env.fetch url = Fetch.response 200 page →
      (processUrl env domain crawl_id url st).rows =
        st.rows ++ [⟨url, 200, analyze_links page.anchors url⟩]) := by
  refine ⟨fun he => ?_, fun status page he hs => ?_, fun page he => ?_⟩
  · unfold processUrl; rw [he]
  · unfold processUrl; rw [he]; simp [hs]
  · unfold processUrl; rw [he]; simp

/-- Transport for the C3 witness: every fetch answers HTTP 404 with an empty
page. -/
def envC3w : Env := ⟨fun _ => Fetch.response 404 ⟨[], []⟩, fun _ => "running", true⟩

/-- Witness for C3: the 404 case of the amended statement at a concrete
state. -/
theorem C3_witness :
    processUrl envC3w "https://example.com" "cid" "https://example.com"
        (initState "https://example.com") =
      { initState "https://example.com" with
          fetched := (initState "https://example.com").fetched ++ ["https://example.com"] } :=
  (C3_only_status_200_processed envC3w "https://example.com" "cid" "https://example.com"
      (initState "https://example.com")).2.1 404 ⟨[], []⟩ rfl (by decide)

/-- The Scenario A page: two internal anchors to `/about` (duplicated) and one
external anchor to `https://other.com`. -/
def anchorsA : List Anchor := [⟨"/about", []⟩, ⟨"/about", []⟩, ⟨"https://other.com", []⟩]

/-- The Scenario A page body (no images). -/
def pageA : Page := ⟨anchorsA, []⟩

/-- Transport and oracle for Scenario A: the seed serves `pageA`, the
discovered `/about` page serves an empty page, the oracle keeps running. -/
def envC4 : Env :=
  ⟨fun u =>
      if u = "https://example.com" then Fetch.response 200 pageA
      else if u = "https://example.com/about" then Fetch.response 200 ⟨[], []⟩
      else Fetch.fetchError,
    fun _ => "running", true⟩

/-- C4 (Scenario A): processing the seed page appends exactly one new entry to
the frontier, emits exactly three page_links rows — the duplicate internal
anchor twice and the external anchor once — and counts internal_links = 2,
external_links = 1; running the full crawl on that page shows the same. -/
theorem C4_scenario_A :
    process_links anchorsA "https://example.com" "https://example.com" "cid"
        ["https://example.com"] [] true =
      (["https://example.com/about", "https://example.com/about"],
       ["https://example.com/about"],
       [⟨"cid", "https://example.com", "https://example.com/about", false⟩,
        ⟨"cid", "https://example.com", "https://example.com/about", false⟩,
        ⟨"cid", "https://example.com", "https://other.com", false⟩]) ∧
    analyze_links anchorsA "https://example.com" = ⟨2, 1, 0⟩ ∧
    (crawl envC4 "https://example.com" "cid" 10).map
        (fun r => (r.edges, r.rows.map Row.url, r.rows.map Row.links)) =
      some ([⟨"cid", "https://example.com", "https://example.com/about", false⟩,
             ⟨"cid", "https://example.com", "https://example.com/about", false⟩,
             ⟨"cid", "https://example.com", "https://other.com", false⟩],
            ["https://example.com", "https://example.com/about"],
            [⟨2, 1, 0⟩, ⟨0, 0, 0⟩]) := by
  exact ⟨by decide, by decide, by rfl⟩

/-- C5: in every terminating run, no URL is passed to the fetcher twice, no
URL occurs in two CSV rows, and every row URL was fetched — each successfully
fetched page yields exactly one row.  (The dequeue-time discard of an
already-visited URL is the branch of `crawlLoop` that makes the invariant
hold.) -/
theorem C5_no_refetch_no_duplicate_rows (env : Env) (domain crawl_id : String) (fuel : Nat)
    (r : CrawlState) (h : crawl env domain crawl_id fuel = some r) :
    r.fetched.Nodup ∧ (r.rows.map Row.url).Nodup ∧ r.rows.map Row.url ⊆ r.fetched := by
  simp only [crawl] at h
  rcases h0 : crawlLoop env (ensureScheme domain) crawl_id fuel
      (initState (ensureScheme domain)) with _ | st0
  · rw [h0] at h; simp at h
  · rw [h0] at h
    simp at h
    have hinv := crawlLoop_InvC5 env (ensureScheme domain) crawl_id fuel _ st0 h0
      (by simp [InvC5, initState])
    subst h
    exact ⟨hinv.1, hinv.2.1, hinv.2.2.2⟩

/-- Transport for the C5 witness: the seed serves Scenario A's page, anything
else answers 404. -/
def envC5w : Env :=
  ⟨fun u =>
      if u = "https://example.com" then Fetch.response 200 pageA
      else Fetch.response 404 ⟨[], []⟩,
    fun _ => "running", true⟩

/-- The final state of the C5 witness run. -/
def resC5w : CrawlState := (crawl envC5w "https://example.com" "cid" 10).getD default

/-- Witness for C5 on a concrete terminating run. -/
theorem C5_witness :
    resC5w.fetched.Nodup ∧ (resC5w.rows.map Row.url).Nodup ∧
      resC5w.rows.map Row.url ⊆ resC5w.fetched :=
  C5_no_refetch_no_duplicate_rows envC5w "https://example.com" "cid" 10 resC5w (by decide)

/-- C6: the internal/external decision of `process_links` and `analyze_links`
reads only the urlparse netlocs of the reference URL and of the resolved link
— scheme, path and query never enter — and in particular `http://a.com/x` and
`https://a.com/x`, resolved against the scheme-normalized domain `a.com`, both
classify internal. -/
theorem C6_classification_is_netloc_only (d1 d2 u1 u2 : String)
    (hd : netlocOf d1 = netlocOf d2) (hu : netlocOf u1 = netlocOf u2) :
    is_internal d1 u1 = is_internal d2 u2 ∧
    is_internal (ensureScheme "a.com")
        (urljoinModel (ensureScheme "a.com") "http://a.com/x") = true ∧
    is_internal (ensureScheme "a.com")
        (urljoinModel (ensureScheme "a.com") "https://a.com/x") = true := by
  refine ⟨?_, by decide, by decide⟩
  simp [is_internal, hd, hu]

/-- Witness for C6: URLs differing in scheme, path and query but sharing the
authority `a.com` classify identically. -/
theorem C6_witness :
    is_internal "https://a.com" "http://a.com/x?q=1" =
        is_internal "http://a.com/path" "https://a.com/y" ∧
      is_internal (ensureScheme "a.com")
        (urljoinModel (ensureScheme "a.com") "http://a.com/x") = true ∧
      is_internal (ensureScheme "a.com")
        (urljoinModel (ensureScheme "a.com") "https://a.com/x") = true :=
  C6_classification_is_netloc_only "https://a.com" "http://a.com/path" "http://a.com/x?q=1"
    "https://a.com/y" (by decide) (by decide)

/-- C7 (Scenario D): two `<img>` tags with the identical raw src
`logo.png?v=1` yield exactly one image record, with format "png" — the
lowercased extension with the query string cut — and the first occurrence's
alt text; two distinct srcs yield two records, so the deduplication really
keys on the raw src within the page. -/
theorem C7_image_dedup_by_src :
    extract_image_data [⟨"logo.png?v=1", "a1"⟩, ⟨"logo.png?v=1", "a2"⟩]
        "https://example.com/" =
      [⟨"https://example.com/logo.png?v=1", "a1", "png"⟩] ∧
    extract_image_data [⟨"logo.png?v=1", "a1"⟩, ⟨"icon.gif", "a2"⟩]
        "https://example.com/" =
      [⟨"https://example.com/logo.png?v=1", "a1", "png"⟩,
       ⟨"https://example.com/icon.gif", "a2", "gif"⟩] := by
  decide

/-- C8: with the relational sink unavailable the status check constantly
answers "running", so the loop can never exit through the cancellation branch
and a terminating run ends only with an empty frontier. -/
theorem C8_no_sink_no_cancellation (env : Env) (domain crawl_id : String) (fuel : Nat)
    (r : CrawlState) (hsup : env.hasSupabase = false)
    (h : crawl env domain crawl_id fuel = some r) :
    (∀ n, check_crawl_status env n = "running") ∧ r.cancelled = false ∧ r.to_visit = [] := by
  refine ⟨fun n => by simp [check_crawl_status, hsup], ?_⟩
  simp only [crawl] at h
  rcases h0 : crawlLoop env (ensureScheme domain) crawl_id fuel
      (initState (ensureScheme domain)) with _ | st0
  · rw [h0] at h; simp at h
  · rw [h0] at h
    simp at h
    have h2 := crawlLoop_no_supabase env (ensureScheme domain) crawl_id hsup fuel _ st0 h0
    subst h
    exact ⟨h2.1, h2.2⟩

/-- Environment for the C8 witness: no relational client; the oracle would
report "failed" but is never consulted. -/
def envC8w : Env := ⟨fun _ => Fetch.response 200 ⟨[], []⟩, fun _ => "failed", false⟩

/-- The final state of the C8 witness run. -/
def resC8w : CrawlState := (crawl envC8w "https://example.com" "cid" 5).getD default

/-- Witness for C8 on a concrete sink-less run. -/
theorem C8_witness :
    (∀ n, check_crawl_status envC8w n = "running") ∧
      resC8w.cancelled = false ∧ resC8w.to_visit = [] :=
  C8_no_sink_no_cancellation envC8w "https://example.com" "cid" 5 resC8w rfl (by decide)

/-- The seed page of the C9 counterexample run: two internal links. -/
def pageSeed9 : Page := ⟨[⟨"/a", []⟩, ⟨"/b", []⟩], []⟩

/-- Environment for the C9 counterexample: the seed serves `pageSeed9`, the
discovered pages answer 404, and the oracle reports "failed" at the third
status check. -/
def envC9x : Env :=
  ⟨fun u =>
      if u = "https://example.com" then Fetch.response 200 pageSeed9
      else Fetch.response 404 ⟨[], []⟩,
    fun n => if n = 3 then "failed" else "running", true⟩

/-- C9 counterexample: a run cancelled at the third status check after the
second fetch failed with a 404 ends with three URLs in the visited set but
only one fully processed and persisted page — the claimed equation
`|VisitedSet| = fully processed pages + 1` is false here (3 versus 1 + 1). -/
theorem C9_counterexample :
    (crawl envC9x "https://example.com" "cid" 10).map
        (fun r => (r.cancelled, r.visited.length, r.rows.length,
          decide (r.visited.length = r.rows.length + 1))) =
      some (true, 3, 1, false) := by
  rfl

/-- C9 amended: the dequeued URL is added to the visited set before the status
check and before any fetch, so a run that terminates through cancellation has
exactly one visited URL — the one dequeued last, recorded at the break — that
was never passed to the fetcher, and the visited set is one longer than the
fetch-attempt list.  (Relative to the claim, "fully processed pages" must be
read as fetch-attempted URLs: failed fetches are visited but not fully
processed.) -/
theorem C9_amended_visited_is_fetched_plus_one (env : Env) (domain crawl_id : String)
    (fuel : Nat) (r : CrawlState) (h : crawl env domain crawl_id fuel = some r)
    (hc : r.cancelled = true) :
    ∃ u, r.cancelledAt = some u ∧ r.visited = r.fetched ++ [u] ∧
      r.visited.length = r.fetched.length + 1 := by
  simp only [crawl] at h
  rcases h0 : crawlLoop env (ensureScheme domain) crawl_id fuel
      (initState (ensureScheme domain)) with _ | st0
  · rw [h0] at h; simp at h
  · rw [h0] at h
    simp at h
    have h2 := crawlLoop_cancel_shape env (ensureScheme domain) crawl_id fuel _ st0 h0 rfl rfl
    subst h
    obtain ⟨u, hu, hvis⟩ := h2.2 hc
    exact ⟨u, hu, hvis, by rw [hvis]; simp⟩

/-- Environment for the C9 witness: a run cancelled at the first status
check. -/
def envC9w : Env := ⟨fun _ => Fetch.fetchError, fun _ => "failed", true⟩

/-- The final state of the C9 witness run. -/
def resC9w : CrawlState := (crawl envC9w "https://example.com" "cid" 5).getD default

/-- Witness for the amended C9 on a concrete cancelled run. -/
theorem C9_witness :
    ∃ u, resC9w.cancelledAt = some u ∧ resC9w.visited = resC9w.fetched ++ [u] ∧
      resC9w.visited.length = resC9w.fetched.length + 1 :=
  C9_amended_visited_is_fetched_plus_one envC9w "https://example.com" "cid" 5 resC9w
    (by decide) (by decide)

/-- C10: the image format comes from the substring after the LAST dot of the
whole resolved src — the query string takes part in that search — truncated at
`?` and `#` and lowercased: `photo.jpg?v=1.2` yields "2" (not "jpg"), a
resolved src containing no dot yields "", and `pic.png?a#b` yields "png". -/
theorem C10_format_after_last_dot :
    extract_image_data [⟨"photo.jpg?v=1.2", ""⟩] "https://example.com/" =
        [⟨"https://example.com/photo.jpg?v=1.2", "", "2"⟩] ∧
      extract_image_data [⟨"https://localhost/logo", ""⟩] "https://example.com/" =
        [⟨"https://localhost/logo", "", ""⟩] ∧
      formatOf "https://example.com/pic.png?a#b" = "png" ∧
      formatOf "https://example.com/pic.PNG" = "png" := by
  decide
